import Mathlib

/-!
Verification of the BachatBot chatbot service (src/PlakshaChatbot/app.py).

The original logic of the program is: a keyword-based domain filter
(`is_finance_tax_related`), a retry/backoff loop around the raw
language-model call (`call_llm_with_retry`), the answer-composition policy
(`get_answer`), and the `/chat` HTTP handler (`chat`).

External collaborators (the FAISS retriever, the conversational chain over
the language model, the language model itself, and Flask's JSON body
parsing) are modelled as explicit stub parameters:
* retrieval is an `Except String (List String)` — either the list of
  retrieved chunk texts or the exception message raised by the retriever;
* grounded generation is an `Except String String` — either the raw
  answer string of the chain or the exception message it raised.  Per the
  chain's contract (the chain is constructed with the shared conversation
  memory), a successful generation appends the new (question, answer) turn
  to the memory; a generation that raises leaves the memory untouched;
* the raw language model used by the fallback path is a function from the
  attempt index to `Except String String` (`llm.predict` succeeding with a
  string or raising with a message `str(e)`);
* the body parse (`request.get_json()` plus `data.get("message")`) is an
  `Except String (Option String)`: `Except.error e` models the parse
  raising with message `e`, `Except.ok none` a parseable body with no
  "message" field, `Except.ok (some m)` a body carrying message `m`.

Time (`time.sleep`) is modelled by recording the slept durations in a
list, and the number of language-model attempts is recorded alongside.
-/

/-- `hasInfixAux pat l` is true when `pat` occurs contiguously in `l`
(the model of Python's `in` operator on the underlying character list). -/
def hasInfixAux (pat : List Char) : List Char → Bool
  | [] => pat.isPrefixOf []
  | c :: rest => pat.isPrefixOf (c :: rest) || hasInfixAux pat rest

/-- Python's substring test `pat in s`. -/
def hasSubstr (s pat : String) : Bool :=
  hasInfixAux pat.toList s.toList

/-- Python's `str.lower()`: lower-case every character. -/
def pyLower (s : String) : String :=
  String.mk (s.toList.map Char.toLower)

/-- Python's `str.strip()`: remove leading and trailing whitespace. -/
def pyStrip (s : String) : String :=
  String.mk (((s.toList.dropWhile Char.isWhitespace).reverse.dropWhile
    Char.isWhitespace).reverse)

/-- The fixed keyword list of `is_finance_tax_related` in app.py. -/
def keywords : List String :=
  ["tax", "gst", "income", "itr", "capital gain", "deduction",
   "filing", "assessment", "refund", "audit", "financial year",
   "finance", "exemption", "tds", "income tax", "taxable", "section", "investment"]

/-- `is_finance_tax_related(query)` from app.py: lower-case the query and
test whether any keyword occurs in it as a substring. -/
def is_finance_tax_related (query : String) : Bool :=
  keywords.any (fun kw => hasSubstr (pyLower query) kw)

/-- The observable outcome of `call_llm_with_retry`: the returned string,
the list of sleep durations (seconds) performed, and how many times
`llm.predict` was attempted. -/
structure RetryResult where
  answer : String
  sleeps : List Nat
  attempts : Nat
deriving Repr, DecidableEq

/-- The loop body of `call_llm_with_retry`: `attempt` is the current value
of the loop counter, `remaining` the number of loop iterations left,
`sleeps` the sleeps performed so far.  Falling off the loop returns the
fixed "currently experiencing issues" string. -/
def call_llm_go (stub : Nat → Except String String) :
    Nat → Nat → List Nat → RetryResult
  | attempt, 0, sleeps =>
    ⟨"I am currently experiencing issues. Please try again later.", sleeps, attempt⟩
  | attempt, remaining + 1, sleeps =>
    match stub attempt with
    | Except.ok s => ⟨s, sleeps, attempt + 1⟩
    | Except.error e =>
      if hasSubstr e "429" then
        call_llm_go stub (attempt + 1) remaining (sleeps ++ [2 ^ attempt])
      else
        ⟨"Sorry, I encountered an error processing your request.", sleeps, attempt + 1⟩

/-- `call_llm_with_retry(query, max_retries)` from app.py, with the
language model abstracted as `stub` (mapping the attempt index to the
result of `llm.predict(query)`). -/
def call_llm_with_retry (stub : Nat → Except String String)
    (max_retries : Nat) : RetryResult :=
  call_llm_go stub 0 max_retries []

/-- `retrieved_docs` after the try/except around `retriever.invoke(query)`
in `get_answer`: a raised exception is replaced by the empty list. -/
def retrievedDocs (retrieval : Except String (List String)) : List String :=
  match retrieval with
  | Except.ok docs => docs
  | Except.error _ => []

/-- The guard `if retrieved_docs and any(doc.page_content.strip() for doc
in retrieved_docs)` of `get_answer`. -/
def nonBlankChunks (docs : List String) : Bool :=
  (!docs.isEmpty) && docs.any (fun d => !(pyStrip d).toList.isEmpty)

/-- The disclaimer test of `get_answer`: the (stripped) grounded answer,
lower-cased, contains "not mention" or "does not contain". -/
def disclaims (s : String) : Bool :=
  hasSubstr (pyLower s) "not mention" || hasSubstr (pyLower s) "does not contain"

/-- The observable outcome of `get_answer`: the returned string, the
conversation memory after the call, and how many times
`call_llm_with_retry` (the fallback answerer) was invoked. -/
structure ComposeResult where
  answer : String
  memory : List (String × String)
  fallbackCalls : Nat
deriving Repr, DecidableEq

/-- `get_answer(query)` from app.py, with the retriever, the grounded
generation chain and the raw language model abstracted as stubs and the
shared conversation memory passed explicitly.  On successful generation
the chain appends the (query, raw answer) turn to the memory; generation
failure is the chain raising, leaving the memory untouched. -/
def get_answer (query : String) (retrieval : Except String (List String))
    (gen : Except String String) (stub : Nat → Except String String)
    (memory : List (String × String)) : ComposeResult :=
  if nonBlankChunks (retrievedDocs retrieval) then
    match gen with
    | Except.ok raw =>
      let faiss_answer := pyStrip raw
      let memory2 := memory ++ [(query, raw)]
      if disclaims faiss_answer then
        if is_finance_tax_related query then
          ⟨faiss_answer ++ "\n\n🔹 Additional info from LLM:\n" ++
            (call_llm_with_retry stub 3).answer, memory2, 1⟩
        else
          ⟨"⚠️ I can only answer finance or tax-related queries. Please try again with a relevant question.",
            memory2, 0⟩
      else
        ⟨faiss_answer, memory2, 0⟩
    | Except.error _ =>
      if is_finance_tax_related query then
        ⟨(call_llm_with_retry stub 3).answer, memory, 1⟩
      else
        ⟨"⚠️ I can only answer finance or tax-related queries.", memory, 0⟩
  else
    if is_finance_tax_related query then
      ⟨(call_llm_with_retry stub 3).answer, memory, 1⟩
    else
      ⟨"⚠️ I can only answer finance or tax-related queries. Please ask something related to tax or finance.",
        memory, 0⟩

/-- The `/chat` handler from app.py.  `parse` models
`request.get_json()` followed by `data.get("message")`: an error is an
exception raised while reading the body (caught by the handler's
catch-all, producing a 500); `none` is a missing "message" field; an
empty string is an empty message.  The result is the HTTP status and the
JSON body as an association list. -/
def chat (parse : Except String (Option String))
    (retrieval : Except String (List String)) (gen : Except String String)
    (stub : Nat → Except String String) (memory : List (String × String)) :
    Nat × List (String × String) :=
  match parse with
  | Except.error e => (500, [("error", e)])
  | Except.ok user_message =>
    match user_message with
    | none => (400, [("error", "No message provided.")])
    | some m =>
      if m.toList.isEmpty then
        (400, [("error", "No message provided.")])
      else
        (200, [("answer", (get_answer m retrieval gen stub memory).answer),
               ("source", "OpenAI/LangChain")])

/-! ### Helper lemmas -/

/-- `hasInfixAux` decides the `List.IsInfix` relation. -/
theorem hasInfixAux_iff (pat l : List Char) :
    hasInfixAux pat l = true ↔ pat <:+: l := by
  induction l with
  | nil =>
    simp [hasInfixAux, List.isPrefixOf_iff_prefix]
  | cons c rest ih =>
    simp [hasInfixAux, List.isPrefixOf_iff_prefix, ih, List.infix_cons_iff]

/-- `hasSubstr` decides substring occurrence on the character lists. -/
theorem hasSubstr_iff (s pat : String) :
    hasSubstr s pat = true ↔ pat.toList <:+: s.toList :=
  hasInfixAux_iff pat.toList s.toList

/-- The retry loop performs at most `remaining` further attempts. -/
theorem call_llm_go_attempts_le (stub : Nat → Except String String)
    (remaining : Nat) : ∀ (attempt : Nat) (sleeps : List Nat),
    (call_llm_go stub attempt remaining sleeps).attempts ≤ attempt + remaining := by
  induction remaining with
  | zero => intro attempt sleeps; simp [call_llm_go]
  | succ r ih =>
    intro attempt sleeps
    simp only [call_llm_go]
    cases h : stub attempt with
    | ok s => simp
    | error e =>
      by_cases h429 : hasSubstr e "429" = true
      · simp only [h429, if_true]
        have := ih (attempt + 1) (sleeps ++ [2 ^ attempt])
        omega
      · simp only [Bool.not_eq_true] at h429
        simp [h429]

/-- Every answer the retry loop can return is the exhaustion message, the
apology message, or a success value of the stub. -/
theorem call_llm_go_answer_cases (stub : Nat → Except String String)
    (remaining : Nat) : ∀ (attempt : Nat) (sleeps : List Nat),
    (call_llm_go stub attempt remaining sleeps).answer =
        "I am currently experiencing issues. Please try again later."
    ∨ (call_llm_go stub attempt remaining sleeps).answer =
        "Sorry, I encountered an error processing your request."
    ∨ ∃ n, stub n =
        Except.ok ((call_llm_go stub attempt remaining sleeps).answer) := by
  induction remaining with
  | zero => intro attempt sleeps; left; simp [call_llm_go]
  | succ r ih =>
    intro attempt sleeps
    simp only [call_llm_go]
    cases h : stub attempt with
    | ok s =>
      right; right; exact ⟨attempt, by simp [h]⟩
    | error e =>
      by_cases h429 : hasSubstr e "429" = true
      · simp only [h429, if_true]
        exact ih (attempt + 1) (sleeps ++ [2 ^ attempt])
      · simp only [Bool.not_eq_true] at h429
        simp [h429]

/-! ### Claims -/

/-- C4: `is_finance_tax_related` returns true exactly when the lower-cased
query contains one of the fixed keywords as a contiguous substring; it is
a pure function of the query, so determinism is immediate. -/
theorem C4_domain_filter (query : String) :
    is_finance_tax_related query = true ↔
      ∃ kw ∈ keywords, kw.toList <:+: (pyLower query).toList := by
  simp [is_finance_tax_related, List.any_eq_true, hasSubstr_iff]

/-- C1: for every query the domain filter rejects, on every fallback path
— a disclaiming grounded answer, a retrieval failure, a generation
failure, or an empty retrieval — `get_answer` returns a rejection message
containing "only answer finance or tax-related queries" and never invokes
the fallback answerer. -/
theorem C1_nonfinance_gating (query : String)
    (retrieval : Except String (List String)) (gen : Except String String)
    (stub : Nat → Except String String) (memory : List (String × String))
    (hq : is_finance_tax_related query = false)
    (hpath : nonBlankChunks (retrievedDocs retrieval) = false
      ∨ (∃ e, gen = Except.error e)
      ∨ (∃ raw, gen = Except.ok raw ∧ disclaims (pyStrip raw) = true)) :
    hasSubstr (get_answer query retrieval gen stub memory).answer
        "only answer finance or tax-related queries" = true
    ∧ (get_answer query retrieval gen stub memory).fallbackCalls = 0 := by
  rcases hpath with hempty | ⟨e, hgen⟩ | ⟨raw, hgen, hdisc⟩
  · simp only [get_answer, hempty, if_false, Bool.false_eq_true, hq]
    exact ⟨by decide, trivial⟩
  · subst hgen
    by_cases hret : nonBlankChunks (retrievedDocs retrieval) = true
    · simp only [get_answer, hret, if_true, hq, Bool.false_eq_true, if_false]
      exact ⟨by decide, trivial⟩
    · simp only [Bool.not_eq_true] at hret
      simp only [get_answer, hret, Bool.false_eq_true, if_false, hq]
      exact ⟨by decide, trivial⟩
  · subst hgen
    by_cases hret : nonBlankChunks (retrievedDocs retrieval) = true
    · simp only [get_answer, hret, if_true, hdisc, hq, Bool.false_eq_true,
        if_false]
      exact ⟨by decide, trivial⟩
    · simp only [Bool.not_eq_true] at hret
      simp only [get_answer, hret, Bool.false_eq_true, if_false, hq]
      exact ⟨by decide, trivial⟩

/-- Witness for C1 at a concrete non-finance query on each of the three
fallback-trigger shapes. -/
theorem C1_nonfinance_gating_witness :
    is_finance_tax_related "what is the weather" = false
    ∧ (hasSubstr (get_answer "what is the weather" (Except.ok [])
          (Except.ok "anything") (fun _ => Except.ok "fb") []).answer
          "only answer finance or tax-related queries" = true
        ∧ (get_answer "what is the weather" (Except.ok [])
            (Except.ok "anything") (fun _ => Except.ok "fb") []).fallbackCalls = 0)
    ∧ (hasSubstr (get_answer "what is the weather" (Except.ok ["chunk"])
          (Except.error "boom") (fun _ => Except.ok "fb") []).answer
          "only answer finance or tax-related queries" = true
        ∧ (get_answer "what is the weather" (Except.ok ["chunk"])
            (Except.error "boom") (fun _ => Except.ok "fb") []).fallbackCalls = 0)
    ∧ (hasSubstr (get_answer "what is the weather" (Except.ok ["chunk"])
          (Except.ok "The text does not contain that") (fun _ => Except.ok "fb") []).answer
          "only answer finance or tax-related queries" = true
        ∧ (get_answer "what is the weather" (Except.ok ["chunk"])
            (Except.ok "The text does not contain that")
            (fun _ => Except.ok "fb") []).fallbackCalls = 0) :=
  ⟨by decide,
   C1_nonfinance_gating "what is the weather" (Except.ok [])
     (Except.ok "anything") (fun _ => Except.ok "fb") [] (by decide)
     (Or.inl (by decide)),
   C1_nonfinance_gating "what is the weather" (Except.ok ["chunk"])
     (Except.error "boom") (fun _ => Except.ok "fb") [] (by decide)
     (Or.inr (Or.inl ⟨"boom", rfl⟩)),
   C1_nonfinance_gating "what is the weather" (Except.ok ["chunk"])
     (Except.ok "The text does not contain that") (fun _ => Except.ok "fb") []
     (by decide)
     (Or.inr (Or.inr ⟨"The text does not contain that", rfl, by decide⟩))⟩

/-- C2: the fallback retry loop makes at most 3 attempts; after each
rate-limited (429) failure it sleeps `2^attempt` seconds and retries, so a
stub failing with 429 twice then succeeding returns the success value with
sleeps [1, 2] over 3 attempts, and a stub always failing with 429 returns
the fixed "currently experiencing issues" string after 3 attempts. -/
theorem C2_retry_backoff (stub : Nat → Except String String) :
    (call_llm_with_retry stub 3).attempts ≤ 3
    ∧ (∀ e0 e1 v, stub 0 = Except.error e0 → hasSubstr e0 "429" = true →
        stub 1 = Except.error e1 → hasSubstr e1 "429" = true →
        stub 2 = Except.ok v →
        call_llm_with_retry stub 3 = ⟨v, [1, 2], 3⟩)
    ∧ ((∀ n, n < 3 → ∃ e, stub n = Except.error e ∧ hasSubstr e "429" = true) →
        (call_llm_with_retry stub 3).answer =
            "I am currently experiencing issues. Please try again later."
        ∧ (call_llm_with_retry stub 3).attempts = 3
        ∧ (call_llm_with_retry stub 3).sleeps = [1, 2, 4]) := by
  refine ⟨call_llm_go_attempts_le stub 3 0 [], ?_, ?_⟩
  · intro e0 e1 v h0 h0r h1 h1r h2
    simp [call_llm_with_retry, call_llm_go, h0, h0r, h1, h1r, h2]
  · intro hall
    obtain ⟨e0, h0, h0r⟩ := hall 0 (by omega)
    obtain ⟨e1, h1, h1r⟩ := hall 1 (by omega)
    obtain ⟨e2, h2, h2r⟩ := hall 2 (by omega)
    simp [call_llm_with_retry, call_llm_go, h0, h0r, h1, h1r, h2, h2r]

/-- Witness for C2: a stub failing twice with a 429 error then succeeding,
and a stub that always fails with a 429 error. -/
theorem C2_retry_backoff_witness :
    call_llm_with_retry
        (fun n => if n < 2 then Except.error "Error code: 429" else Except.ok "fine") 3 =
      ⟨"fine", [1, 2], 3⟩
    ∧ (call_llm_with_retry (fun _ => Except.error "Error code: 429") 3).answer =
        "I am currently experiencing issues. Please try again later."
    ∧ (call_llm_with_retry (fun _ => Except.error "Error code: 429") 3).attempts = 3
    ∧ (call_llm_with_retry (fun _ => Except.error "Error code: 429") 3).sleeps = [1, 2, 4] :=
  ⟨(C2_retry_backoff
      (fun n => if n < 2 then Except.error "Error code: 429" else Except.ok "fine")).2.1
      "Error code: 429" "Error code: 429" "fine" rfl (by decide) rfl (by decide) rfl,
   (C2_retry_backoff (fun _ => Except.error "Error code: 429")).2.2
      (fun n _ => ⟨"Error code: 429", rfl, by decide⟩)⟩

/-- C3: for a finance query, a successful retrieval with a non-blank chunk
and a non-empty grounded answer that disclaims ("not mention" or "does
not contain"), `get_answer` invokes the fallback answerer exactly once and
returns the grounded answer followed by the labelled "Additional info"
section holding the fallback answer. -/
theorem C3_finance_disclaimer_augments (query raw : String)
    (retrieval : Except String (List String))
    (stub : Nat → Except String String) (memory : List (String × String))
    (hret : nonBlankChunks (retrievedDocs retrieval) = true)
    (hq : is_finance_tax_related query = true)
    (hne : pyStrip raw ≠ "")
    (hdisc : disclaims (pyStrip raw) = true) :
    get_answer query retrieval (Except.ok raw) stub memory =
      ⟨pyStrip raw ++ "\n\n🔹 Additional info from LLM:\n" ++
        (call_llm_with_retry stub 3).answer,
       memory ++ [(query, raw)], 1⟩ := by
  simp [get_answer, hret, hdisc, hq]

/-- Witness for C3 at a concrete finance query with a disclaiming grounded
answer and a concrete fallback stub. -/
theorem C3_finance_disclaimer_augments_witness :
    nonBlankChunks (retrievedDocs (Except.ok ["chunk"])) = true
    ∧ is_finance_tax_related "how is income tax computed" = true
    ∧ pyStrip "The document does not mention that rate." ≠ ""
    ∧ disclaims (pyStrip "The document does not mention that rate.") = true
    ∧ get_answer "how is income tax computed" (Except.ok ["chunk"])
        (Except.ok "The document does not mention that rate.")
        (fun _ => Except.ok "Slab rates apply.") [] =
      ⟨pyStrip "The document does not mention that rate." ++
        "\n\n🔹 Additional info from LLM:\n" ++
        (call_llm_with_retry (fun _ => Except.ok "Slab rates apply.") 3).answer,
       [("how is income tax computed", "The document does not mention that rate.")], 1⟩ :=
  ⟨by decide, by decide, by decide, by decide,
   C3_finance_disclaimer_augments "how is income tax computed"
     "The document does not mention that rate." (Except.ok ["chunk"])
     (fun _ => Except.ok "Slab rates apply.") [] (by decide) (by decide)
     (by decide) (by decide)⟩

/-- C5: a first failure whose signature does not contain "429" makes the
fallback answerer return the fixed apology string immediately — one
attempt, no sleep — and for every stub and bound the loop always returns
a string: the exhaustion message, the apology message, or a success value
of the stub. -/
theorem C5_non429_immediate_and_total (stub : Nat → Except String String) :
    (∀ e, stub 0 = Except.error e → hasSubstr e "429" = false →
      call_llm_with_retry stub 3 =
        ⟨"Sorry, I encountered an error processing your request.", [], 1⟩)
    ∧ (∀ max_retries : Nat,
        (call_llm_with_retry stub max_retries).answer =
            "I am currently experiencing issues. Please try again later."
        ∨ (call_llm_with_retry stub max_retries).answer =
            "Sorry, I encountered an error processing your request."
        ∨ ∃ n, stub n =
            Except.ok ((call_llm_with_retry stub max_retries).answer)) := by
  constructor
  · intro e h0 h0r
    simp [call_llm_with_retry, call_llm_go, h0, h0r]
  · intro max_retries
    exact call_llm_go_answer_cases stub max_retries 0 []

/-- Witness for C5: a stub whose first failure is not rate-limited. -/
theorem C5_non429_immediate_and_total_witness :
    call_llm_with_retry (fun _ => Except.error "invalid api key") 3 =
      ⟨"Sorry, I encountered an error processing your request.", [], 1⟩ :=
  (C5_non429_immediate_and_total (fun _ => Except.error "invalid api key")).1
    "invalid api key" rfl (by decide)

/-- C6: a failing retrieval call is swallowed: `get_answer` on a retrieval
exception behaves exactly as on an empty retrieval, and lands in the
domain-gated branch — fallback for finance queries, the fixed rejection
otherwise. -/
theorem C6_retrieval_failure_swallowed (query e : String)
    (gen : Except String String) (stub : Nat → Except String String)
    (memory : List (String × String)) :
    get_answer query (Except.error e) gen stub memory =
      get_answer query (Except.ok []) gen stub memory
    ∧ get_answer query (Except.error e) gen stub memory =
      (if is_finance_tax_related query then
        ⟨(call_llm_with_retry stub 3).answer, memory, 1⟩
      else
        ⟨"⚠️ I can only answer finance or tax-related queries. Please ask something related to tax or finance.",
          memory, 0⟩) := by
  constructor
  · rfl
  · by_cases hq : is_finance_tax_related query = true
    · simp [get_answer, retrievedDocs, nonBlankChunks, hq]
    · simp only [Bool.not_eq_true] at hq
      simp [get_answer, retrievedDocs, nonBlankChunks, hq]

/-- C7: a successful retrieval with a non-blank chunk and a successful,
non-empty, non-disclaiming grounded answer is returned as-is (stripped,
exactly as the code computes it), with no fallback call; the memory gains
the new turn. -/
theorem C7_clean_grounded_as_is (query raw : String)
    (retrieval : Except String (List String))
    (stub : Nat → Except String String) (memory : List (String × String))
    (hret : nonBlankChunks (retrievedDocs retrieval) = true)
    (hne : pyStrip raw ≠ "")
    (hdisc : disclaims (pyStrip raw) = false) :
    get_answer query retrieval (Except.ok raw) stub memory =
      ⟨pyStrip raw, memory ++ [(query, raw)], 0⟩ := by
  simp [get_answer, hret, hdisc]

/-- Witness for C7 at a concrete clean grounded answer. -/
theorem C7_clean_grounded_as_is_witness :
    nonBlankChunks (retrievedDocs (Except.ok ["chunk"])) = true
    ∧ pyStrip "GST is levied at 18%." ≠ ""
    ∧ disclaims (pyStrip "GST is levied at 18%.") = false
    ∧ get_answer "what is gst" (Except.ok ["chunk"])
        (Except.ok "GST is levied at 18%.") (fun _ => Except.ok "fb") [] =
      ⟨pyStrip "GST is levied at 18%.",
       [("what is gst", "GST is levied at 18%.")], 0⟩ :=
  ⟨by decide, by decide, by decide,
   C7_clean_grounded_as_is "what is gst" "GST is levied at 18%."
     (Except.ok ["chunk"]) (fun _ => Except.ok "fb") [] (by decide) (by decide)
     (by decide)⟩

/-- C8: the `/chat` handler returns 400 with the fixed error body when the
parsed body has no "message" field or an empty one, and for a non-empty
message returns 200 with the composer's answer and the fixed
"OpenAI/LangChain" source tag. -/
theorem C8_endpoint_contract (retrieval : Except String (List String))
    (gen : Except String String) (stub : Nat → Except String String)
    (memory : List (String × String)) :
    chat (Except.ok none) retrieval gen stub memory =
      (400, [("error", "No message provided.")])
    ∧ chat (Except.ok (some "")) retrieval gen stub memory =
      (400, [("error", "No message provided.")])
    ∧ ∀ m : String, m ≠ "" →
        chat (Except.ok (some m)) retrieval gen stub memory =
          (200, [("answer", (get_answer m retrieval gen stub memory).answer),
                 ("source", "OpenAI/LangChain")]) := by
  refine ⟨rfl, rfl, ?_⟩
  intro m hm
  have hdata : m.data ≠ [] := by
    intro hd
    apply hm
    cases m with
    | mk data => cases hd; rfl
  simp [chat, hdata]

/-- Witness for C8 at a concrete non-empty message. -/
theorem C8_endpoint_contract_witness :
    chat (Except.ok (some "what is gst")) (Except.error "down")
        (Except.ok "x") (fun _ => Except.ok "fb") [] =
      (200, [("answer", (get_answer "what is gst" (Except.error "down")
                (Except.ok "x") (fun _ => Except.ok "fb") []).answer),
             ("source", "OpenAI/LangChain")])
    ∧ chat (Except.ok none) (Except.error "down") (Except.ok "x")
        (fun _ => Except.ok "fb") [] =
      (400, [("error", "No message provided.")]) :=
  ⟨(C8_endpoint_contract (Except.error "down") (Except.ok "x")
      (fun _ => Except.ok "fb") []).2.2 "what is gst" (by decide),
   (C8_endpoint_contract (Except.error "down") (Except.ok "x")
      (fun _ => Except.ok "fb") []).1⟩

/-- C10: an exception raised while reading the request body is caught by
the handler's catch-all: the response is 500 with the failure description,
not the 400 "No message provided." response. -/
theorem C10_malformed_body_500 (e : String)
    (retrieval : Except String (List String)) (gen : Except String String)
    (stub : Nat → Except String String) (memory : List (String × String)) :
    chat (Except.error e) retrieval gen stub memory = (500, [("error", e)])
    ∧ chat (Except.error e) retrieval gen stub memory ≠
      (400, [("error", "No message provided.")]) := by
  refine ⟨rfl, ?_⟩
  intro h
  have : (500 : Nat) = 400 := congrArg Prod.fst h
  omega

/-- C9 counterexample: it is not the case that the conversation memory is
left unchanged only on the paths where retrieval failed or was empty — a
successful non-blank retrieval followed by a failing grounded generation
also leaves the memory unchanged. -/
theorem C9_memory_counterexample :
    ¬ (∀ (query : String) (retrieval : Except String (List String))
        (gen : Except String String) (stub : Nat → Except String String)
        (memory : List (String × String)),
        (get_answer query retrieval gen stub memory).memory = memory →
        nonBlankChunks (retrievedDocs retrieval) = false) := by
  intro h
  have := h "hello" (Except.ok ["chunk text"]) (Except.error "boom")
      (fun _ => Except.ok "fb") [] (by decide)
  exact absurd this (by decide)

/-- C9 amended: when grounded generation runs and succeeds, the memory is
appended with the new (query, grounded answer) turn even when the composer
then returns the rejection message (disclaiming answer, non-finance
query); the memory is unchanged exactly on the paths where grounded
generation never completes — empty or blank retrieval, retrieval failure,
or a generation failure. -/
theorem C9_memory_mutation_amended (query raw : String)
    (retrieval : Except String (List String)) (gen : Except String String)
    (stub : Nat → Except String String) (memory : List (String × String)) :
    (nonBlankChunks (retrievedDocs retrieval) = true →
      gen = Except.ok raw → disclaims (pyStrip raw) = true →
      is_finance_tax_related query = false →
      get_answer query retrieval gen stub memory =
        ⟨"⚠️ I can only answer finance or tax-related queries. Please try again with a relevant question.",
         memory ++ [(query, raw)], 0⟩)
    ∧ (nonBlankChunks (retrievedDocs retrieval) = true →
      gen = Except.ok raw →
      (get_answer query retrieval gen stub memory).memory =
        memory ++ [(query, raw)])
    ∧ ((nonBlankChunks (retrievedDocs retrieval) = false
        ∨ ∃ e, gen = Except.error e) →
      (get_answer query retrieval gen stub memory).memory = memory) := by
  refine ⟨?_, ?_, ?_⟩
  · intro hret hgen hdisc hq
    subst hgen
    simp [get_answer, hret, hdisc, hq]
  · intro hret hgen
    subst hgen
    by_cases hdisc : disclaims (pyStrip raw) = true
    · by_cases hq : is_finance_tax_related query = true
      · simp [get_answer, hret, hdisc, hq]
      · simp only [Bool.not_eq_true] at hq
        simp [get_answer, hret, hdisc, hq]
    · simp only [Bool.not_eq_true] at hdisc
      simp [get_answer, hret, hdisc]
  · rintro (hret | ⟨e, hgen⟩)
    · by_cases hq : is_finance_tax_related query = true
      · simp [get_answer, hret, hq]
      · simp only [Bool.not_eq_true] at hq
        simp [get_answer, hret, hq]
    · subst hgen
      by_cases hret : nonBlankChunks (retrievedDocs retrieval) = true
      · by_cases hq : is_finance_tax_related query = true
        · simp [get_answer, hret, hq]
        · simp only [Bool.not_eq_true] at hq
          simp [get_answer, hret, hq]
      · simp only [Bool.not_eq_true] at hret
        by_cases hq : is_finance_tax_related query = true
        · simp [get_answer, hret, hq]
        · simp only [Bool.not_eq_true] at hq
          simp [get_answer, hret, hq]

/-- Witness for the amended C9: a disclaiming grounded answer on a
non-finance query returns the rejection with the memory already extended,
and a generation failure on a good retrieval leaves the memory unchanged. -/
theorem C9_memory_mutation_amended_witness :
    get_answer "hello" (Except.ok ["chunk"])
        (Except.ok "The text does not mention it") (fun _ => Except.ok "fb") [] =
      ⟨"⚠️ I can only answer finance or tax-related queries. Please try again with a relevant question.",
       [("hello", "The text does not mention it")], 0⟩
    ∧ (get_answer "hello" (Except.ok ["chunk"]) (Except.error "boom")
        (fun _ => Except.ok "fb") []).memory = [] :=
  ⟨(C9_memory_mutation_amended "hello" "The text does not mention it"
      (Except.ok ["chunk"]) (Except.ok "The text does not mention it")
      (fun _ => Except.ok "fb") []).1 (by decide) rfl (by decide) (by decide),
   (C9_memory_mutation_amended "hello" "irrelevant" (Except.ok ["chunk"])
      (Except.error "boom") (fun _ => Except.ok "fb") []).2.2
      (Or.inr ⟨"boom", rfl⟩)⟩
